import Mathlib

/-!
# Verification of the tournament progression engine

Shallow embedding of the engine of this repository:

* `Standings` mirrors `new_stack/web/utils/standings.ts` (`computeStandings`)
  together with its caller (the standings page's `getServerSideProps`, which
  passes every team of every group in a single call).
* `Admin` mirrors the admin API route `new/src/app/api/admin/maps/save/route.ts`
  (map save, match-outcome resolution, bracket propagation), the
  `matches/update` route, and the playoff-bracket editor actions
  (round-1 creation, round-2 bye seeding, match-level forfeit save).

JavaScript numbers that the code only ever uses as round counts, team ids and
scores are modelled as `Nat` (point differential, which can go negative, as
`Int`); nullable columns as `Option`; JavaScript truthiness of a nullable
number (`null` and `0` are falsy) is modelled explicitly where the source
relies on it.
-/

namespace Standings

/-- Mirrors `Team` of `utils/standings.ts`. -/
structure Team where
  id : Nat
  name : String
  group_name : String
deriving Repr, DecidableEq

/-- Mirrors `Match` of `utils/standings.ts` (nullable fields as `Option`). -/
structure MatchR where
  id : Nat
  team1_id : Nat
  team2_id : Nat
  match_type : String
  status : String
  week : Option Nat
  format : Option String
  score_t1 : Option Nat
  score_t2 : Option Nat
  maps_played : Option Nat
  is_forfeit : Option Nat
deriving Repr, DecidableEq

/-- Mirrors `MapRow` of `utils/standings.ts`. -/
structure MapRow where
  match_id : Nat
  team1_rounds : Option Nat
  team2_rounds : Option Nat
deriving Repr, DecidableEq

/-- Mirrors `StandingRow` of `utils/standings.ts` (`pd` may be negative). -/
structure StandingRow where
  id : Nat
  name : String
  group_name : String
  played : Nat
  wins : Nat
  losses : Nat
  points : Nat
  pd : Int
  remaining : Nat
  eliminated : Bool
deriving Repr, DecidableEq

/-- Model of `String.prototype.toLowerCase()` on the ASCII strings the engine
compares (match types and statuses); defined over the character list so that
it evaluates by kernel reduction. -/
def strToLower (s : String) : String :=
  String.mk (s.data.map Char.toLower)

/-- The fresh all-zero row that `teams.forEach` writes into `byTeam`. -/
def initRow (t : Team) : StandingRow :=
  { id := t.id, name := t.name, group_name := t.group_name, played := 0,
    wins := 0, losses := 0, points := 0, pd := 0, remaining := 0,
    eliminated := false }

/-- `byTeam[t.id] = row`: a keyed write into the record object (a later write
with the same id replaces the earlier entry, otherwise a new key is added). -/
def upsertRow (l : List StandingRow) (r : StandingRow) : List StandingRow :=
  if l.any (fun x => x.id = r.id) then
    l.map (fun x => if x.id = r.id then r else x)
  else
    l ++ [r]

/-- The `teams.forEach` loop building `byTeam`. -/
def initRows (teams : List Team) : List StandingRow :=
  teams.foldl (fun acc t => upsertRow acc (initRow t)) []

/-- One in-place field mutation `byTeam[i].f ← ...` (a no-op when the key is
absent; when `team1_id = team2_id` both references alias the same object, which
sequential keyed updates reproduce). -/
def adjust (rows : List StandingRow) (i : Nat) (f : StandingRow → StandingRow) :
    List StandingRow :=
  rows.map (fun x => if x.id = i then f x else x)

/-- The `roundAgg` map of `computeStandings`: summed `team1_rounds` and
`team2_rounds` (null as 0) over all map rows of one match; `(0, 0)` when the
match has no map row, exactly as `roundAgg.get(id) || \x7b t1: 0, t2: 0 \x7d`. -/
def roundAgg (maps : List MapRow) (mid : Nat) : Nat × Nat :=
  maps.foldl
    (fun a r =>
      if r.match_id = mid then
        (a.1 + r.team1_rounds.getD 0, a.2 + r.team2_rounds.getD 0)
      else a)
    (0, 0)

/-- The body of `regs.forEach(m => ...)` in `computeStandings`, acting on the
`byTeam` table. Skips the match when either team id is not a key of `byTeam`. -/
def processMatch (maps : List MapRow) (rows : List StandingRow) (m : MatchR) :
    List StandingRow :=
  match rows.find? (fun x => x.id = m.team1_id),
        rows.find? (fun x => x.id = m.team2_id) with
  | some _, some _ =>
    let agg := roundAgg maps m.id
    let score_t1 := if 0 < agg.1 then agg.1 else m.score_t1.getD 0
    let score_t2 := if 0 < agg.2 then agg.2 else m.score_t2.getD 0
    let maps_played := m.maps_played.getD 0
    let is_forfeit := m.is_forfeit.getD 0
    if strToLower m.status = "completed" ∨ 0 < score_t1 + score_t2 ∨
        0 < maps_played ∨ is_forfeit = 1 then
      let rows := adjust rows m.team1_id (fun t => { t with played := t.played + 1 })
      let rows := adjust rows m.team2_id (fun t => { t with played := t.played + 1 })
      let p1 := if score_t2 < score_t1 then 15 else min score_t1 12
      let p2 := if score_t1 < score_t2 then 15 else min score_t2 12
      let rows := adjust rows m.team1_id (fun t => { t with points := t.points + p1 })
      let rows := adjust rows m.team2_id (fun t => { t with points := t.points + p2 })
      let rows := adjust rows m.team1_id
        (fun t => { t with pd := t.pd + ((score_t1 : Int) - (score_t2 : Int)) })
      let rows := adjust rows m.team2_id
        (fun t => { t with pd := t.pd + ((score_t2 : Int) - (score_t1 : Int)) })
      if score_t2 < score_t1 then
        let rows := adjust rows m.team1_id (fun t => { t with wins := t.wins + 1 })
        adjust rows m.team2_id (fun t => { t with losses := t.losses + 1 })
      else if score_t1 < score_t2 then
        let rows := adjust rows m.team2_id (fun t => { t with wins := t.wins + 1 })
        adjust rows m.team1_id (fun t => { t with losses := t.losses + 1 })
      else rows
    else
      let rows := adjust rows m.team1_id (fun t => { t with remaining := t.remaining + 1 })
      adjust rows m.team2_id (fun t => { t with remaining := t.remaining + 1 })
  | _, _ => rows

/-- Insertion step for the `Object.values(byTeam)` order: integer-like keys of
a JavaScript object enumerate in ascending numeric order. -/
def insertById (r : StandingRow) : List StandingRow → List StandingRow
  | [] => [r]
  | x :: xs => if r.id < x.id then r :: x :: xs else x :: insertById r xs

/-- `Object.values(byTeam)`: the rows listed by ascending id. -/
def sortById (l : List StandingRow) : List StandingRow :=
  l.foldl (fun acc r => insertById r acc) []

/-- The sort comparator `(a, b) => b.points - a.points, then b.pd - a.pd`:
`a` strictly precedes `b`. -/
def rowBefore (a b : StandingRow) : Prop :=
  b.points < a.points ∨ (a.points = b.points ∧ b.pd < a.pd)

instance (a b : StandingRow) : Decidable (rowBefore a b) :=
  inferInstanceAs (Decidable (b.points < a.points ∨ (a.points = b.points ∧ b.pd < a.pd)))

/-- Stable insertion for the standings sort (later rows come after rows that
compare equal, as `Array.prototype.sort` is stable). -/
def insertRanked (r : StandingRow) : List StandingRow → List StandingRow
  | [] => [r]
  | x :: xs => if rowBefore r x then r :: x :: xs else x :: insertRanked r xs

/-- `rows.sort(...)` with the points-then-pd descending comparator; a stable
sort for a strict weak order, so any stable implementation yields the same
list as the source's. -/
def rankSort (l : List StandingRow) : List StandingRow :=
  l.foldl (fun acc r => insertRanked r acc) []

/-- Mirrors `computeStandings` of `utils/standings.ts` end to end. -/
def computeStandings (teams : List Team) (ms : List MatchR)
    (maps : List MapRow) : List StandingRow :=
  let byTeam := initRows teams
  let regs := ms.filter (fun m => strToLower m.match_type == "regular")
  let final := regs.foldl (processMatch maps) byTeam
  let sorted := rankSort (sortById final)
  let sixth := ((sorted.get? 5).map StandingRow.points).getD 0
  sorted.map (fun r =>
    { r with eliminated := decide (r.points + r.remaining * 15 < sixth) })

end Standings

namespace Standings

/-- The per-group ranked table the specification speaks of: the rows of one
group, in their ranked order. -/
def groupTable (out : List StandingRow) (g : String) : List StandingRow :=
  out.filter (fun r => r.group_name = g)

/-- Modelled from the spec's words (refinement target for the elimination
rule): the points of the 6th-ranked row of the team's own group's table,
0 if that group has fewer than 6 teams. -/
def specSixth (out : List StandingRow) (g : String) : Nat :=
  (((groupTable out g).get? 5).map StandingRow.points).getD 0

/-- Modelled from the spec's words (refinement target): a team is eliminated
iff its points plus 15 per remaining match stay below its own group's
6th-place points. -/
def specEliminated (out : List StandingRow) (r : StandingRow) : Prop :=
  r.points + r.remaining * 15 < specSixth out r.group_name

instance (out : List StandingRow) (r : StandingRow) :
    Decidable (specEliminated out r) :=
  inferInstanceAs (Decidable (r.points + r.remaining * 15 < specSixth out r.group_name))

/-- A completed 13-0 regular match, used by the concrete scenarios below. -/
def mkCompleted (idv a b : Nat) : MatchR :=
  { id := idv, team1_id := a, team2_id := b, match_type := "regular",
    status := "completed", week := none, format := none,
    score_t1 := some 13, score_t2 := some 0, maps_played := none,
    is_forfeit := none }

/-- Six group-A teams plus a lone group-B team. -/
def exTeamsC1 : List Team :=
  [⟨1, "t1", "A"⟩, ⟨2, "t2", "A"⟩, ⟨3, "t3", "A"⟩,
   ⟨4, "t4", "A"⟩, ⟨5, "t5", "A"⟩, ⟨6, "t6", "A"⟩, ⟨7, "t7", "B"⟩]

/-- Each group-A pair splits two 13-0 matches, so all six A teams end on
15 points; the group-B team plays nothing. -/
def exMatchesC1 : List MatchR :=
  [mkCompleted 101 1 2, mkCompleted 102 2 1,
   mkCompleted 103 3 4, mkCompleted 104 4 3,
   mkCompleted 105 5 6, mkCompleted 106 6 5]

def exOutC1 : List StandingRow := computeStandings exTeamsC1 exMatchesC1 []

/-- The group-B team's output row in that scenario. -/
def row7C1 : StandingRow :=
  { id := 7, name := "t7", group_name := "B", played := 0, wins := 0,
    losses := 0, points := 0, pd := 0, remaining := 0, eliminated := true }

end Standings

namespace Admin

/-- A row of the `matches` table, with every column the admin routes and the
bracket editor read or write (nullable columns as `Option`). -/
structure MatchRec where
  id : Nat
  week : Option Nat
  group_name : String
  team1_id : Option Nat
  team2_id : Option Nat
  status : String
  format : String
  score_t1 : Option Nat
  score_t2 : Option Nat
  maps_played : Option Nat
  winner_id : Option Nat
  match_type : String
  playoff_round : Option Nat
  bracket_pos : Option Nat
  bracket_label : Option String
  is_forfeit : Option Nat
  reported : Bool
  channel_id : Option Nat
  submitter_id : Option Nat
deriving Repr, DecidableEq

/-- A row of the `match_maps` table as the save route inserts it. -/
structure MapRec where
  match_id : Nat
  map_index : Nat
  map_name : String
  team1_rounds : Option Nat
  team2_rounds : Option Nat
  winner_id : Option Nat
  is_forfeit : Nat
deriving Repr, DecidableEq

/-- A row of the `match_stats_map` table as the save route inserts it. -/
structure StatRec where
  match_id : Nat
  map_index : Nat
  team_id : Option Nat
  player_id : Option Nat
  is_sub : Nat
  subbed_for_id : Option Nat
  agent : String
  acs : Nat
  kills : Nat
  deaths : Nat
  assists : Nat
deriving Repr, DecidableEq

/-- A row of `pending_matches` (only the columns the save route reads). -/
structure PendingRec where
  id : Nat
  channel_id : Option Nat
  submitter_id : Option Nat
deriving Repr, DecidableEq

/-- The persisted state the admin operations touch. -/
structure DB where
  «matches» : List MatchRec
  match_maps : List MapRec
  match_stats_map : List StatRec
  pending_matches : List PendingRec
deriving Repr, DecidableEq

/-- The request body's `mapData` object. -/
structure MapData where
  index : Nat
  name : String
  t1_rounds : Option Nat
  t2_rounds : Option Nat
  winner_id : Option Nat
  is_forfeit : Bool
deriving Repr, DecidableEq

/-- One entry of the request body's `playerStats` array. -/
structure PlayerStat where
  team_id : Option Nat
  player_id : Option Nat
  is_sub : Bool
  subbed_for_id : Option Nat
  agent : String
  acs : Nat
  kills : Nat
  deaths : Nat
  assists : Nat
deriving Repr, DecidableEq

/-- The body of a save request (`meta?.pendingId` flattened to an option). -/
structure SaveRequest where
  matchId : Nat
  mapData : MapData
  playerStats : List PlayerStat
  pendingId : Option Nat
deriving Repr, DecidableEq

/-- JavaScript truthiness of a nullable number: `null` and `0` are falsy. -/
def truthy (o : Option Nat) : Bool := o.getD 0 != 0

/-- `.single()`: a row only when the filtered result has exactly one row. -/
def single {α : Type} (l : List α) : Option α :=
  match l with
  | [x] => some x
  | _ => none

/-- The largest match id in the table (0 when empty). -/
def maxId (ms : List MatchRec) : Nat := ms.foldl (fun a mm => max a mm.id) 0

/-- Model of the database's auto-assigned id for an inserted match: one more
than the largest existing id, hence distinct from every existing id. -/
def freshId (ms : List MatchRec) : Nat := maxId ms + 1

/-- The successor-slot query of the save route: a playoff match at
round `round + 1` and bracket position `pos`. -/
def isSuccessorAt (round pos : Nat) (mm : MatchRec) : Bool :=
  mm.match_type == "playoff" && mm.playoff_round == some (round + 1) &&
    mm.bracket_pos == some pos

/-- The successor match the save route inserts when none exists: the winner
is placed in `team2_id` and `team1_id` is left null. -/
def newSuccessor (week round pos winnerTeam idv : Nat) : MatchRec :=
  { id := idv, week := some week, group_name := "Playoffs", team1_id := none,
    team2_id := some winnerTeam, status := "scheduled", format := "BO3",
    score_t1 := none, score_t2 := none, maps_played := some 0,
    winner_id := none, match_type := "playoff",
    playoff_round := some (round + 1), bracket_pos := some pos,
    bracket_label := some ("R" ++ toString (round + 1) ++ " #" ++ toString pos),
    is_forfeit := none, reported := false, channel_id := none,
    submitter_id := none }

/-- Mirrors the bracket-propagation tail of the save route (lines 75-110):
`pos = matchInfo.bracket_pos || 0` is already applied by the caller, an empty
team slot is a falsy `team1_id`/`team2_id`, and the conditional
`updates.team1_id || updates.team2_id` makes the write depend on the winner id
being truthy. -/
def propagateWinner (ms : List MatchRec) (week round pos winnerTeam : Nat) :
    List MatchRec :=
  if pos = 0 then ms
  else
    match ms.find? (isSuccessorAt round pos) with
    | some nm =>
      if truthy nm.team1_id = false then
        if winnerTeam ≠ 0 then
          ms.map (fun x => if x.id = nm.id then
            { x with team1_id := some winnerTeam } else x)
        else ms
      else if truthy nm.team2_id = false then
        if winnerTeam ≠ 0 then
          ms.map (fun x => if x.id = nm.id then
            { x with team2_id := some winnerTeam } else x)
        else ms
      else ms
    | none => ms ++ [newSuccessor week round pos winnerTeam (freshId ms)]

/-- The `match_maps` row the save route inserts for the request. -/
def mapRowOf (req : SaveRequest) : MapRec :=
  { match_id := req.matchId, map_index := req.mapData.index,
    map_name := req.mapData.name, team1_rounds := req.mapData.t1_rounds,
    team2_rounds := req.mapData.t2_rounds, winner_id := req.mapData.winner_id,
    is_forfeit := if req.mapData.is_forfeit then 1 else 0 }

/-- The `match_maps` table after the route's delete-then-insert of the
request's map row. -/
def mapsAfterSave (db : DB) (req : SaveRequest) : List MapRec :=
  db.match_maps.filter
    (fun r => !(r.match_id == req.matchId && r.map_index == req.mapData.index))
    ++ [mapRowOf req]

/-- `allMaps`: every stored map row of the match, read back after the insert. -/
def allMapsAfter (db : DB) (req : SaveRequest) : List MapRec :=
  (mapsAfterSave db req).filter (fun r => r.match_id == req.matchId)

/-- The `match_stats_map` table after the route's delete-then-insert of the
request's per-map player stats. -/
def statsAfterSave (db : DB) (req : SaveRequest) : List StatRec :=
  db.match_stats_map.filter
    (fun r => !(r.match_id == req.matchId && r.map_index == req.mapData.index))
    ++ req.playerStats.map (fun s =>
      { match_id := req.matchId, map_index := req.mapData.index,
        team_id := s.team_id, player_id := s.player_id,
        is_sub := if s.is_sub then 1 else 0,
        subbed_for_id := s.subbed_for_id, agent := s.agent, acs := s.acs,
        kills := s.kills, deaths := s.deaths, assists := s.assists })

/-- `t1Wins`: the maps of the match whose winner id equals `team1_id` (an
equality of nullable columns, as JavaScript `===` on two nulls holds). -/
def t1WinsOf (db : DB) (req : SaveRequest) (mi : MatchRec) : Nat :=
  ((allMapsAfter db req).filter (fun r => r.winner_id == mi.team1_id)).length

/-- `t2Wins`, symmetric to `t1Wins`. -/
def t2WinsOf (db : DB) (req : SaveRequest) (mi : MatchRec) : Nat :=
  ((allMapsAfter db req).filter (fun r => r.winner_id == mi.team2_id)).length

/-- `finalWinner`: the side with the larger map-win count, null on a tie. -/
def finalWinnerOf (db : DB) (req : SaveRequest) (mi : MatchRec) : Option Nat :=
  if t2WinsOf db req mi < t1WinsOf db req mi then mi.team1_id
  else if t1WinsOf db req mi < t2WinsOf db req mi then mi.team2_id
  else none

/-- The core of the route's match update `payload`. -/
def baseOf (db : DB) (req : SaveRequest) (mi : MatchRec) (x : MatchRec) :
    MatchRec :=
  { x with
    score_t1 := some (t1WinsOf db req mi),
    score_t2 := some (t2WinsOf db req mi),
    maps_played := some (allMapsAfter db req).length,
    winner_id := finalWinnerOf db req mi,
    status := "completed" }

/-- The full match update, with the pending-report fields added when the
request names a pending match. -/
def updOf (db : DB) (req : SaveRequest) (mi : MatchRec) (x : MatchRec) :
    MatchRec :=
  if truthy req.pendingId then
    match single (db.pending_matches.filter
        (fun p => p.id == req.pendingId.getD 0)) with
    | some pend =>
      { baseOf db req mi x with
        reported := true,
        channel_id := pend.channel_id,
        submitter_id := pend.submitter_id }
    | none => { baseOf db req mi x with reported := true }
  else baseOf db req mi x

/-- The `pending_matches` table after the route deletes a consumed report. -/
def pendingAfter (db : DB) (req : SaveRequest) : List PendingRec :=
  if truthy req.pendingId then
    db.pending_matches.filter (fun p => !(p.id == req.pendingId.getD 0))
  else db.pending_matches

/-- The state after a save against an existing match `mi`: match updated,
then the playoff propagation applied when the match is a playoff with a
truthy winner (`round = playoff_round || 1`, `pos = bracket_pos || 0`). -/
def savePostOk (db : DB) (req : SaveRequest) (mi : MatchRec) : DB :=
  let ms1 := db.matches.map
    (fun x => if x.id = req.matchId then updOf db req mi x else x)
  let ms2 := if mi.match_type == "playoff" && truthy (finalWinnerOf db req mi)
    then
      propagateWinner ms1 (mi.week.getD 0)
        (if mi.playoff_round.getD 0 = 0 then 1 else mi.playoff_round.getD 0)
        (mi.bracket_pos.getD 0) ((finalWinnerOf db req mi).getD 0)
    else ms1
  { «matches» := ms2, match_maps := mapsAfterSave db req,
    match_stats_map := statsAfterSave db req,
    pending_matches := pendingAfter db req }

/-- Mirrors the POST handler of `api/admin/maps/save/route.ts` after its auth
check: rejects a falsy match id, replaces the map row and its per-map stats,
recomputes the match outcome from all stored map rows, updates the match to
`completed`, resolves a pending report, and propagates a playoff winner into
the successor slot. When `.single()` does not yield exactly one match row,
only the map and stats tables change. -/
def savePost (db : DB) (req : SaveRequest) : Except String DB :=
  if req.matchId = 0 then .error "bad request"
  else
    match single (db.matches.filter (fun mm => mm.id == req.matchId)) with
    | none => .ok { db with match_maps := mapsAfterSave db req,
                            match_stats_map := statsAfterSave db req }
    | some mi => .ok (savePostOk db req mi)

/-- `true` on a successful route response. -/
def isOk (e : Except String DB) : Bool :=
  match e with
  | .ok _ => true
  | .error _ => false

end Admin

namespace Admin

/-- The round-2 query of the bye-seeding loop: a playoff match at round 2 and
bracket position `i`. -/
def byeMatchPred (i : Nat) (mm : MatchRec) : Bool :=
  mm.match_type == "playoff" && mm.playoff_round == some 2 &&
    mm.bracket_pos == some i

/-- The round-2 match the bye-seeding loop creates when the position is empty
(`team1_id: byeTeam || null`). -/
def newByeMatch (idv i : Nat) (byeTeam : Option Nat) : MatchRec :=
  { id := idv, week := some 0, group_name := "Playoffs",
    team1_id := if truthy byeTeam then byeTeam else none, team2_id := none,
    status := "scheduled", format := "BO3", score_t1 := none,
    score_t2 := none, maps_played := some 0, winner_id := none,
    match_type := "playoff", playoff_round := some 2, bracket_pos := some i,
    bracket_label := some ("R2 #" ++ toString i), is_forfeit := none,
    reported := false, channel_id := none, submitter_id := none }

/-- One iteration of the Seed Round 2 BYEs loop of the playoff bracket editor
(part_008 lines 656-703): if a match exists at round-2 position `i` and a bye
team is selected, `team1_id` is written with the bye team through the update
route; otherwise a match is created for the position. -/
def seedPos (ms : List MatchRec) (i : Nat) (byeTeam : Option Nat) :
    List MatchRec :=
  match ms.find? (byeMatchPred i) with
  | some ex =>
    if truthy byeTeam then
      ms.map (fun x => if x.id = ex.id then { x with team1_id := byeTeam } else x)
    else ms
  | none => ms ++ [newByeMatch (freshId ms) i byeTeam]

/-- The whole Seed Round 2 BYEs loop over positions 1 through 8. -/
def seedRound2Byes (ms : List MatchRec) (byes : List (Option Nat)) :
    List MatchRec :=
  (List.range 8).foldl (fun db j => seedPos db (j + 1) (byes.getD j none)) ms

/-- The round-1 match payload of the Create Round 1 Matches button. -/
def round1Match (idv pos : Nat) : MatchRec :=
  { id := idv, week := some 0, group_name := "Playoffs", team1_id := none,
    team2_id := none, status := "scheduled", format := "BO3",
    score_t1 := none, score_t2 := none, maps_played := some 0,
    winner_id := none, match_type := "playoff", playoff_round := some 1,
    bracket_pos := some pos, bracket_label := some ("R1 #" ++ toString pos),
    is_forfeit := none, reported := false, channel_id := none,
    submitter_id := none }

/-- Mirrors the Create Round 1 Matches handler (part_008 lines 599-637): it
counts the existing round-1 matches and bulk-creates matches at positions
`existing + 1` through 8 (`Math.max(0, 8 - existing)` equals truncated `Nat`
subtraction). -/
def createRound1Slots (ms : List MatchRec) : List MatchRec :=
  let existing := (ms.filter (fun mm => mm.playoff_round == some 1)).length
  let needed := 8 - existing
  if 0 < needed then
    ms ++ (List.range needed).map
      (fun j => round1Match (freshId ms + j) (existing + 1 + j))
  else ms

/-- The selected match of the unified score editor, with the two team ids the
forfeit path reads (`sel.team1.id`, `sel.team2.id`). -/
structure SelMatch where
  id : Nat
  team1_id : Nat
  team2_id : Nat
deriving Repr, DecidableEq

/-- Modelled from the spec: `clearMatchDetails` lives in the out-of-repo
module `lib/data`; per the spec's forfeit path, which "bypasses per-map
aggregation entirely", it clears the stored per-map rows (and their per-map
stats) of the match before the match-level outcome is written. -/
def clearMatchDetails (db : DB) (mid : Nat) : DB :=
  { db with
    match_maps := db.match_maps.filter (fun r => !(r.match_id == mid)),
    match_stats_map := db.match_stats_map.filter (fun r => !(r.match_id == mid)) }

/-- Mirrors `saveForfeitMatch` (part_008 lines 1013-1029): clears the match
details, then writes a 13-0 score through the update route, which converts
the boolean `is_forfeit: true` to the column value 1. The `forfeit` flag
selects the direction: when set, team 1 receives the 13; otherwise team 2. -/
def saveForfeitMatch (db : DB) (sel : SelMatch) (forfeit : Bool)
    (format : String) : DB :=
  let db1 := clearMatchDetails db sel.id
  let s1 := if forfeit then 13 else 0
  let s2 := if forfeit then 0 else 13
  let winner_id := if s2 < s1 then some sel.team1_id else some sel.team2_id
  { db1 with
    «matches» := db1.matches.map (fun x =>
      if x.id = sel.id then
        { x with
          score_t1 := some s1,
          score_t2 := some s2,
          winner_id := winner_id,
          status := "completed",
          format := format,
          maps_played := some 0,
          is_forfeit := some 1 }
      else x) }

end Admin

namespace Standings

/-- Concrete two-team table used by the score-resolution scenarios. -/
def T1ex : Team := ⟨1, "T1", "A"⟩

def T2ex : Team := ⟨2, "T2", "A"⟩

/-- A completed regular match with stale stored aggregates `1 : 0`. -/
def mC2 : MatchR :=
  { id := 10, team1_id := 1, team2_id := 2, match_type := "regular",
    status := "completed", week := none, format := none,
    score_t1 := some 1, score_t2 := some 0, maps_played := none,
    is_forfeit := none }

/-- One stored map row for that match: team 1 took 0 rounds, team 2 took 13. -/
def mapsC2 : List MapRow := [⟨10, some 0, some 13⟩]

end Standings

namespace Admin

/-- A bare playoff match at a bracket slot. -/
def mkPlayoffMatch (idv round pos : Nat) (t1 t2 : Option Nat) : MatchRec :=
  { id := idv, week := some 0, group_name := "Playoffs", team1_id := t1,
    team2_id := t2, status := "scheduled", format := "BO3", score_t1 := none,
    score_t2 := none, maps_played := some 0, winner_id := none,
    match_type := "playoff", playoff_round := some round,
    bracket_pos := some pos, bracket_label := none, is_forfeit := none,
    reported := false, channel_id := none, submitter_id := none }

/-- A round-2 position-1 successor slot with both sides empty. -/
def msC3 : List MatchRec := [mkPlayoffMatch 50 2 1 none none]

/-- A round-2 position-1 match whose `team1_id` is already occupied by
team 3. -/
def msC5 : List MatchRec := [mkPlayoffMatch 1 2 1 (some 3) none]

/-- A single existing round-1 match sitting at bracket position 5. -/
def msC6 : List MatchRec := [mkPlayoffMatch 1 1 5 none none]

/-- A scheduled regular match between teams 10 and 20. -/
def regMatchC7 : MatchRec :=
  { id := 1, week := some 1, group_name := "A", team1_id := some 10,
    team2_id := some 20, status := "scheduled", format := "BO1",
    score_t1 := none, score_t2 := none, maps_played := some 0,
    winner_id := none, match_type := "regular", playoff_round := none,
    bracket_pos := none, bracket_label := none, is_forfeit := none,
    reported := false, channel_id := none, submitter_id := none }

/-- Database holding only that match, with no stored maps. -/
def dbC7 : DB :=
  { «matches» := [regMatchC7], match_maps := [], match_stats_map := [],
    pending_matches := [] }

/-- A save request whose single map row names winner 99: a team id equal to
neither participant of match 1. -/
def reqC7 : SaveRequest :=
  { matchId := 1,
    mapData := { index := 0, name := "Ascent", t1_rounds := some 13,
                 t2_rounds := some 5, winner_id := some 99,
                 is_forfeit := false },
    playerStats := [], pendingId := none }

/-- A scheduled regular match between teams 10 and 20, selected in the score
editor. -/
def mC9 : MatchRec :=
  { id := 1, week := some 2, group_name := "A", team1_id := some 10,
    team2_id := some 20, status := "scheduled", format := "BO1",
    score_t1 := none, score_t2 := none, maps_played := some 0,
    winner_id := none, match_type := "regular", playoff_round := none,
    bracket_pos := none, bracket_label := none, is_forfeit := none,
    reported := false, channel_id := none, submitter_id := none }

/-- A stored map row for that match, to be cleared by the forfeit path. -/
def mapC9 : MapRec :=
  { match_id := 1, map_index := 0, map_name := "Bind",
    team1_rounds := some 13, team2_rounds := some 11,
    winner_id := some 10, is_forfeit := 0 }

/-- Database for the forfeit scenario. -/
def dbC9 : DB :=
  { «matches» := [mC9], match_maps := [mapC9],
    match_stats_map := [], pending_matches := [] }

end Admin

namespace Standings

lemma elim_flag_of_mem (L : List StandingRow) (s6 : Nat) (r : StandingRow)
    (hr : r ∈ L.map (fun x =>
      { x with eliminated := decide (x.points + x.remaining * 15 < s6) })) :
    r.eliminated = decide (r.points + r.remaining * 15 < s6) := by
  rcases List.mem_map.1 hr with ⟨r0, h0, rfl⟩
  simp

lemma points_get5_elim_map (L : List StandingRow) (s6 : Nat) :
    (((L.map (fun x =>
        { x with eliminated := decide (x.points + x.remaining * 15 < s6) })).get?
          5).map StandingRow.points).getD 0
      = ((L.get? 5).map StandingRow.points).getD 0 := by
  simp [List.get?_map, Option.map_map, Function.comp_def]

/-- Claim C1 (corrected, amended part): in every `computeStandings` output, a
row's eliminated flag is true exactly when its points plus 15 per remaining
match stay below the points of the 6th row of the WHOLE output table — the
threshold is taken across all teams passed in one call (0 when fewer than 6
rows exist), and the caller passes all groups together, not per group. -/
theorem C1_amended (teams : List Team) (ms : List MatchR) (maps : List MapRow)
    (r : StandingRow) (hr : r ∈ computeStandings teams ms maps) :
    r.eliminated = decide (r.points + r.remaining * 15 <
      (((computeStandings teams ms maps).get? 5).map StandingRow.points).getD 0) := by
  have hout : computeStandings teams ms maps =
      (rankSort (sortById (List.foldl (processMatch maps) (initRows teams)
          (ms.filter (fun m => strToLower m.match_type == "regular"))))).map
        (fun x => { x with eliminated := decide (x.points + x.remaining * 15 <
          (((rankSort (sortById (List.foldl (processMatch maps) (initRows teams)
              (ms.filter (fun m => strToLower m.match_type == "regular"))))).get?
                5).map StandingRow.points).getD 0) }) := rfl
  rw [hout] at hr ⊢
  rw [points_get5_elim_map]
  exact elim_flag_of_mem _ _ r hr

/-- Claim C1 (witness): the amended statement instantiated on a one-team
call, where the single row is not eliminated. -/
theorem C1_amended_witness :
    (⟨1, "t", "A", 0, 0, 0, 0, 0, 0, false⟩ : StandingRow).eliminated =
      decide ((⟨1, "t", "A", 0, 0, 0, 0, 0, 0, false⟩ : StandingRow).points +
        (⟨1, "t", "A", 0, 0, 0, 0, 0, 0, false⟩ : StandingRow).remaining * 15 <
        (((computeStandings [⟨1, "t", "A"⟩] [] []).get? 5).map
          StandingRow.points).getD 0) :=
  C1_amended [⟨1, "t", "A"⟩] [] [] _ (by decide)

/-- Claim C1 (counterexample): with six 15-point group-A teams and a lone
0-point group-B team in one call, the group-B row comes out
`eliminated = true` although its own group has fewer than 6 teams, so the
spec's per-group rule (threshold 0) says it must not be eliminated. -/
theorem C1_counterexample :
    exOutC1.find? (fun r => r.id == 7) = some row7C1 ∧
    ¬ specEliminated exOutC1 row7C1 := by decide

lemma processMatch_pair_eval (m : MatchR) (maps : List MapRow) (s1 s2 : Nat)
    (hs1 : s1 = if 0 < (roundAgg maps m.id).1 then (roundAgg maps m.id).1
      else m.score_t1.getD 0)
    (hs2 : s2 = if 0 < (roundAgg maps m.id).2 then (roundAgg maps m.id).2
      else m.score_t2.getD 0)
    (h1 : m.team1_id = 1) (h2 : m.team2_id = 2)
    (hdone : strToLower m.status = "completed") :
    processMatch maps [initRow T1ex, initRow T2ex] m =
      [⟨1, "T1", "A", 1, (if s2 < s1 then 1 else 0), (if s1 < s2 then 1 else 0),
          (if s2 < s1 then 15 else min s1 12), (s1 : Int) - (s2 : Int), 0, false⟩,
       ⟨2, "T2", "A", 1, (if s1 < s2 then 1 else 0), (if s2 < s1 then 1 else 0),
          (if s1 < s2 then 15 else min s2 12), (s2 : Int) - (s1 : Int), 0, false⟩] := by
  have hf1 : List.find? (fun x => x.id = m.team1_id) [initRow T1ex, initRow T2ex]
      = some (initRow T1ex) := by
    simp [h1, initRow, T1ex]
  have hf2 : List.find? (fun x => x.id = m.team2_id) [initRow T1ex, initRow T2ex]
      = some (initRow T2ex) := by
    simp [h2, initRow, T1ex, T2ex]
  unfold processMatch
  rw [hf1, hf2]
  dsimp only
  rw [← hs1, ← hs2]
  rw [if_pos (Or.inl hdone)]
  rcases Nat.lt_trichotomy s1 s2 with hlt | heq | hgt
  · rw [if_neg (Nat.lt_asymm hlt), if_pos hlt]
    simp [adjust, initRow, T1ex, T2ex, h1, h2, Nat.lt_asymm hlt, hlt]
  · subst heq
    rw [if_neg (lt_irrefl s1)]
    rw [if_neg (lt_irrefl s1)]
    simp [adjust, initRow, T1ex, T2ex, h1, h2, lt_irrefl]
  · rw [if_pos hgt]
    simp [adjust, initRow, T1ex, T2ex, h1, h2, Nat.lt_asymm hgt, hgt]

/-- Claim C2 (corrected, amended part): for a completed regular match between
the two teams of the call, the scores that drive points, wins, losses and
point differential are per side: each side uses its summed map rounds when
that sum is positive, and falls back to that side's stored score when the sum
is zero — also when the other side's sum is positive. -/
theorem C2_amended (m : MatchR) (maps : List MapRow) (s1 s2 : Nat)
    (hs1 : s1 = if 0 < (roundAgg maps m.id).1 then (roundAgg maps m.id).1
      else m.score_t1.getD 0)
    (hs2 : s2 = if 0 < (roundAgg maps m.id).2 then (roundAgg maps m.id).2
      else m.score_t2.getD 0)
    (h1 : m.team1_id = 1) (h2 : m.team2_id = 2)
    (hreg : strToLower m.match_type = "regular")
    (hdone : strToLower m.status = "completed") :
    (⟨1, "T1", "A", 1, (if s2 < s1 then 1 else 0), (if s1 < s2 then 1 else 0),
        (if s2 < s1 then 15 else min s1 12), (s1 : Int) - (s2 : Int), 0, false⟩ :
      StandingRow) ∈ computeStandings [T1ex, T2ex] [m] maps ∧
    (⟨2, "T2", "A", 1, (if s1 < s2 then 1 else 0), (if s2 < s1 then 1 else 0),
        (if s1 < s2 then 15 else min s2 12), (s2 : Int) - (s1 : Int), 0, false⟩ :
      StandingRow) ∈ computeStandings [T1ex, T2ex] [m] maps := by
  unfold computeStandings
  have hfilter : List.filter (fun mm => strToLower mm.match_type == "regular") [m]
      = [m] := by
    simp [hreg]
  rw [hfilter]
  have hinit : initRows [T1ex, T2ex] = [initRow T1ex, initRow T2ex] := rfl
  rw [hinit]
  dsimp only [List.foldl]
  rw [processMatch_pair_eval m maps s1 s2 hs1 hs2 h1 h2 hdone]
  simp only [sortById, insertById, List.foldl]
  norm_num
  by_cases hb : rowBefore
      ⟨2, "T2", "A", 1, (if s1 < s2 then 1 else 0), (if s2 < s1 then 1 else 0),
        (if s1 < s2 then 15 else min s2 12), (s2 : Int) - (s1 : Int), 0, false⟩
      ⟨1, "T1", "A", 1, (if s2 < s1 then 1 else 0), (if s1 < s2 then 1 else 0),
        (if s2 < s1 then 15 else min s1 12), (s1 : Int) - (s2 : Int), 0, false⟩
  · simp [rankSort, insertRanked, hb, List.foldl]
  · simp [rankSort, insertRanked, hb, List.foldl]

/-- Claim C2 (witness): the amended statement instantiated on `mC2` (stored
score 1:0) with one map row summing 0:13 — the scores actually used are 1
(stored, because team 1's round sum is 0) and 13 (summed). -/
theorem C2_amended_witness :
    (⟨1, "T1", "A", 1, (if 13 < 1 then 1 else 0), (if 1 < 13 then 1 else 0),
        (if 13 < 1 then 15 else min 1 12), (1 : Int) - (13 : Int), 0, false⟩ :
      StandingRow) ∈ computeStandings [T1ex, T2ex] [mC2] mapsC2 ∧
    (⟨2, "T2", "A", 1, (if 1 < 13 then 1 else 0), (if 13 < 1 then 1 else 0),
        (if 1 < 13 then 15 else min 13 12), (13 : Int) - (1 : Int), 0, false⟩ :
      StandingRow) ∈ computeStandings [T1ex, T2ex] [mC2] mapsC2 :=
  C2_amended mC2 mapsC2 1 13 (by decide) (by decide) rfl rfl (by decide)
    (by decide)

/-- Claim C2 (counterexample): match `mC2` has a map row (0:13 rounds) and
stored scores 1:0; the claim says the summed rounds 0 and 13 must be used, so
team 1's point differential would be −13 — but `computeStandings` gives −12,
because team 1's side fell back to its stored score 1. -/
theorem C2_counterexample :
    ((computeStandings [T1ex, T2ex] [mC2] mapsC2).find?
      (fun r => r.id == 1)).map (fun r => r.pd) = some (-12) ∧
    ((-12 : Int) ≠ -13) := by decide

lemma adjust_ids (rows : List StandingRow) (i : Nat)
    (f : StandingRow → StandingRow) (hf : ∀ x, (f x).id = x.id) :
    (adjust rows i f).map (fun x => x.id) = rows.map (fun x => x.id) := by
  induction rows with
  | nil => rfl
  | cons y ys ih =>
    simp only [adjust, List.map] at ih ⊢
    rw [ih]
    congr 1
    split <;> simp [hf]

lemma processMatch_ids (maps : List MapRow) (rows : List StandingRow)
    (m : MatchR) :
    (processMatch maps rows m).map (fun x => x.id) = rows.map (fun x => x.id) := by
  unfold processMatch
  cases rows.find? (fun x => x.id = m.team1_id) with
  | none => rfl
  | some a =>
    cases rows.find? (fun x => x.id = m.team2_id) with
    | none => rfl
    | some b =>
      dsimp only
      split_ifs <;> simp [adjust_ids]

lemma foldl_processMatch_ids (maps : List MapRow) (rows : List StandingRow)
    (msl : List MatchR) :
    ((msl.foldl (processMatch maps) rows).map (fun x => x.id))
      = rows.map (fun x => x.id) := by
  induction msl generalizing rows with
  | nil => rfl
  | cons a as ih => simp [List.foldl, ih, processMatch_ids]

lemma replace_same_id_ids (acc : List StandingRow) (r : StandingRow) :
    (acc.map (fun x => if x.id = r.id then r else x)).map (fun x => x.id)
      = acc.map (fun x => x.id) := by
  induction acc with
  | nil => rfl
  | cons y ys ih =>
    simp only [List.map] at ih ⊢
    rw [ih]
    congr 1
    split <;> simp_all

lemma upsertRow_ids_mem (acc : List StandingRow) (r : StandingRow) (k : Nat) :
    k ∈ (upsertRow acc r).map (fun x => x.id) ↔
      k ∈ acc.map (fun x => x.id) ∨ k = r.id := by
  unfold upsertRow
  split
  · rename_i h
    rw [replace_same_id_ids]
    have hr : r.id ∈ acc.map (fun x => x.id) := by
      rcases List.any_eq_true.1 h with ⟨x, hx, hxe⟩
      simp at hxe
      exact List.mem_map.2 ⟨x, hx, hxe⟩
    constructor
    · exact Or.inl
    · rintro (hk | rfl)
      · exact hk
      · exact hr
  · simp [or_comm]

lemma mem_ids_initRows (teams : List Team) (k : Nat) :
    k ∈ (initRows teams).map (fun x => x.id) ↔ ∃ t ∈ teams, t.id = k := by
  have gen : ∀ acc : List StandingRow, k ∈ (teams.foldl
      (fun acc t => upsertRow acc (initRow t)) acc).map (fun x => x.id) ↔
      k ∈ acc.map (fun x => x.id) ∨ ∃ t ∈ teams, t.id = k := by
    induction teams with
    | nil => simp
    | cons t ts ih =>
      intro acc
      simp only [List.foldl]
      rw [ih, upsertRow_ids_mem]
      simp only [initRow, List.mem_cons, exists_eq_or_imp]
      tauto
  exact (gen []).trans (by simp)

lemma processMatch_skip (maps : List MapRow) (rows : List StandingRow)
    (m : MatchR)
    (h : rows.find? (fun x => x.id = m.team1_id) = none ∨
         rows.find? (fun x => x.id = m.team2_id) = none) :
    processMatch maps rows m = rows := by
  unfold processMatch
  rcases h with h | h
  · rw [h]
  · rw [h]
    cases rows.find? (fun x => x.id = m.team1_id) <;> rfl

/-- Claim C10 (confirmed): a regular match whose `team1_id` or `team2_id`
matches no team of the input list contributes nothing — the standings table
is identical to the one computed with that match removed. -/
theorem C10_theorem (teams : List Team) (ms1 ms2 : List MatchR) (m : MatchR)
    (maps : List MapRow)
    (h : (∀ t ∈ teams, t.id ≠ m.team1_id) ∨ (∀ t ∈ teams, t.id ≠ m.team2_id)) :
    computeStandings teams (ms1 ++ m :: ms2) maps
      = computeStandings teams (ms1 ++ ms2) maps := by
  unfold computeStandings
  dsimp only
  rw [List.filter_append, List.filter_append, List.filter_cons]
  split
  · set rows := List.foldl (processMatch maps) (initRows teams)
      (List.filter (fun mm => strToLower mm.match_type == "regular") ms1)
      with hrows
    have hids : rows.map (fun x => x.id) = (initRows teams).map (fun x => x.id) := by
      rw [hrows]
      exact foldl_processMatch_ids maps _ _
    have hfind : rows.find? (fun x => x.id = m.team1_id) = none ∨
        rows.find? (fun x => x.id = m.team2_id) = none := by
      rcases h with h | h
      · left
        rw [List.find?_eq_none]
        intro x hx
        simp only [decide_eq_true_eq]
        intro hxe
        have hmem : x.id ∈ (initRows teams).map (fun y => y.id) := by
          rw [← hids]
          exact List.mem_map.2 ⟨x, hx, rfl⟩
        rcases (mem_ids_initRows teams x.id).1 hmem with ⟨t, ht, hte⟩
        exact h t ht (hte.trans hxe)
      · right
        rw [List.find?_eq_none]
        intro x hx
        simp only [decide_eq_true_eq]
        intro hxe
        have hmem : x.id ∈ (initRows teams).map (fun y => y.id) := by
          rw [← hids]
          exact List.mem_map.2 ⟨x, hx, rfl⟩
        rcases (mem_ids_initRows teams x.id).1 hmem with ⟨t, ht, hte⟩
        exact h t ht (hte.trans hxe)
    have hskip : processMatch maps rows m = rows :=
      processMatch_skip maps rows m hfind
    rw [List.foldl_append, List.foldl_append, List.foldl_cons, ← hrows, hskip]
  · rfl

/-- Claim C10 (witness): with the only team being id 1, a completed regular
match between the unknown teams 5 and 6 leaves the table unchanged. -/
theorem C10_theorem_witness :
    computeStandings [⟨1, "a", "A"⟩]
        [{ id := 99, team1_id := 5, team2_id := 6, match_type := "regular",
           status := "completed", week := none, format := none,
           score_t1 := some 13, score_t2 := some 0, maps_played := none,
           is_forfeit := none }] []
      = computeStandings [⟨1, "a", "A"⟩] [] [] :=
  C10_theorem [⟨1, "a", "A"⟩] [] []
    { id := 99, team1_id := 5, team2_id := 6, match_type := "regular",
      status := "completed", week := none, format := none,
      score_t1 := some 13, score_t2 := some 0, maps_played := none,
      is_forfeit := none } [] (Or.inl (by decide))

end Standings
namespace Admin

lemma find?_map_pred_invariant {α : Type} (l : List α) (g : α → α) (p : α → Bool)
    (hp : ∀ x, p (g x) = p x) : (l.map g).find? p = (l.find? p).map g := by
  rw [List.find?_map]
  have hpg : p ∘ g = p := funext hp
  rw [hpg]

lemma mem_le_maxId (ms : List MatchRec) (x : MatchRec) (hx : x ∈ ms) :
    x.id ≤ maxId ms := by
  have gen : ∀ (l : List MatchRec) (a : Nat),
      (∀ y ∈ l, y.id ≤ l.foldl (fun b mm => max b mm.id) a) ∧
        a ≤ l.foldl (fun b mm => max b mm.id) a := by
    intro l
    induction l with
    | nil => intro a; exact ⟨by simp, le_refl a⟩
    | cons y ys ih =>
      intro a
      constructor
      · intro z hz
        rcases List.mem_cons.1 hz with rfl | hz'
        · calc z.id ≤ max a z.id := le_max_right _ _
            _ ≤ _ := (ih (max a z.id)).2
        · exact (ih (max a y.id)).1 z hz'
      · calc a ≤ max a y.id := le_max_left _ _
          _ ≤ _ := (ih (max a y.id)).2
  exact (gen ms 0).1 x hx

lemma ne_freshId (ms : List MatchRec) (x : MatchRec) (hx : x ∈ ms) :
    x.id ≠ freshId ms := by
  have := mem_le_maxId ms x hx
  unfold freshId
  omega

lemma map_patch_of_fresh (ms : List MatchRec) (g : MatchRec → MatchRec)
    (nid : Nat) (hfresh : ∀ x ∈ ms, x.id ≠ nid) :
    ms.map (fun x => if x.id = nid then g x else x) = ms := by
  have h : ∀ x ∈ ms, (if x.id = nid then g x else x) = id x := by
    intro x hx
    simp [hfresh x hx]
  rw [List.map_congr_left h, List.map_id]

end Admin

namespace Admin

lemma patch1_pred (round pos : Nat) (nid : Nat) (w : Nat) (x : MatchRec) :
    isSuccessorAt round pos (if x.id = nid then { x with team1_id := some w } else x)
      = isSuccessorAt round pos x := by
  split <;> rfl

lemma patch2_pred (round pos : Nat) (nid : Nat) (w : Nat) (x : MatchRec) :
    isSuccessorAt round pos (if x.id = nid then { x with team2_id := some w } else x)
      = isSuccessorAt round pos x := by
  split <;> rfl

lemma propagateWinner_none (ms : List MatchRec) (week round pos w : Nat)
    (hpos : pos ≠ 0) (h : ms.find? (isSuccessorAt round pos) = none) :
    propagateWinner ms week round pos w
      = ms ++ [newSuccessor week round pos w (freshId ms)] := by
  unfold propagateWinner
  rw [if_neg hpos, h]

lemma propagateWinner_some (ms : List MatchRec) (week round pos w : Nat)
    (nm : MatchRec) (hpos : pos ≠ 0)
    (h : ms.find? (isSuccessorAt round pos) = some nm) :
    propagateWinner ms week round pos w
      = if truthy nm.team1_id = false then
          if w ≠ 0 then
            ms.map (fun x => if x.id = nm.id then
              { x with team1_id := some w } else x)
          else ms
        else if truthy nm.team2_id = false then
          if w ≠ 0 then
            ms.map (fun x => if x.id = nm.id then
              { x with team2_id := some w } else x)
          else ms
        else ms := by
  unfold propagateWinner
  rw [if_neg hpos, h]

lemma propagate_converges (ms : List MatchRec) (week round pos w : Nat) :
    propagateWinner (propagateWinner (propagateWinner ms week round pos w)
        week round pos w) week round pos w
      = propagateWinner (propagateWinner ms week round pos w) week round pos w := by
  by_cases hpos : pos = 0
  · simp [propagateWinner, hpos]
  · cases hfind : ms.find? (isSuccessorAt round pos) with
    | none =>
      have hp1 : propagateWinner ms week round pos w
          = ms ++ [newSuccessor week round pos w (freshId ms)] :=
        propagateWinner_none ms week round pos w hpos hfind
      have hfind1 : (ms ++ [newSuccessor week round pos w (freshId ms)]).find?
          (isSuccessorAt round pos)
          = some (newSuccessor week round pos w (freshId ms)) := by
        rw [List.find?_append, hfind]
        simp [isSuccessorAt, newSuccessor]
      by_cases hw : w = 0
      · have hp2 : propagateWinner (ms ++ [newSuccessor week round pos w (freshId ms)])
            week round pos w = ms ++ [newSuccessor week round pos w (freshId ms)] := by
          rw [propagateWinner_some _ week round pos w _ hpos hfind1]
          simp [newSuccessor, truthy, hw]
        rw [hp1, hp2, hp2]
      · have hp2 : propagateWinner (ms ++ [newSuccessor week round pos w (freshId ms)])
            week round pos w
            = ms ++ [{ newSuccessor week round pos w (freshId ms) with
                team1_id := some w }] := by
          rw [propagateWinner_some _ week round pos w _ hpos hfind1]
          have ht1 : truthy (newSuccessor week round pos w (freshId ms)).team1_id
              = false := by
            simp [newSuccessor, truthy]
          rw [ht1]
          have hid : (newSuccessor week round pos w (freshId ms)).id = freshId ms := rfl
          simp only [hid, eq_self_iff_true, if_true, hw, ne_eq, not_false_iff,
            List.map_append]
          rw [map_patch_of_fresh ms _ _ (fun x hx => ne_freshId ms x hx)]
          simp [newSuccessor]
        have hfind2 : (ms ++ [{ newSuccessor week round pos w (freshId ms) with
            team1_id := some w }]).find? (isSuccessorAt round pos)
            = some { newSuccessor week round pos w (freshId ms) with
                team1_id := some w } := by
          rw [List.find?_append, hfind]
          simp [isSuccessorAt, newSuccessor]
        have hp3 : propagateWinner (ms ++ [{ newSuccessor week round pos w (freshId ms)
            with team1_id := some w }]) week round pos w
            = ms ++ [{ newSuccessor week round pos w (freshId ms) with
                team1_id := some w }] := by
          rw [propagateWinner_some _ week round pos w _ hpos hfind2]
          simp [newSuccessor, truthy, hw]
        rw [hp1, hp2, hp3]
    | some nm =>
      by_cases ht1 : truthy nm.team1_id
      · by_cases ht2 : truthy nm.team2_id
        · have hp1 : propagateWinner ms week round pos w = ms := by
            rw [propagateWinner_some ms week round pos w nm hpos hfind, ht1, ht2]
            simp
          simp only [hp1]
        · by_cases hw : w = 0
          · have hp1 : propagateWinner ms week round pos w = ms := by
              rw [propagateWinner_some ms week round pos w nm hpos hfind, ht1]
              simp [ht2, hw]
            simp only [hp1]
          · have hp1 : propagateWinner ms week round pos w
                = ms.map (fun x => if x.id = nm.id then
                    { x with team2_id := some w } else x) := by
              rw [propagateWinner_some ms week round pos w nm hpos hfind, ht1]
              simp [ht2, hw]
            have hfind1 : (ms.map (fun x => if x.id = nm.id then
                { x with team2_id := some w } else x)).find? (isSuccessorAt round pos)
                = some { nm with team2_id := some w } := by
              rw [find?_map_pred_invariant _ _ _ (patch2_pred round pos nm.id w), hfind]
              simp
            have hp2 : propagateWinner (ms.map (fun x => if x.id = nm.id then
                { x with team2_id := some w } else x)) week round pos w
                = ms.map (fun x => if x.id = nm.id then
                    { x with team2_id := some w } else x) := by
              rw [propagateWinner_some _ week round pos w _ hpos hfind1]
              have h1 : truthy ({ nm with team2_id := some w } : MatchRec).team1_id
                  = true := ht1
              rw [h1]
              simp [truthy, hw]
            rw [hp1, hp2, hp2]
      · by_cases hw : w = 0
        · have hp1 : propagateWinner ms week round pos w = ms := by
            rw [propagateWinner_some ms week round pos w nm hpos hfind]
            simp [ht1, hw]
          simp only [hp1]
        · have hp1 : propagateWinner ms week round pos w
              = ms.map (fun x => if x.id = nm.id then
                  { x with team1_id := some w } else x) := by
            rw [propagateWinner_some ms week round pos w nm hpos hfind]
            simp [ht1, hw]
          have hfind1 : (ms.map (fun x => if x.id = nm.id then
              { x with team1_id := some w } else x)).find? (isSuccessorAt round pos)
              = some { nm with team1_id := some w } := by
            rw [find?_map_pred_invariant _ _ _ (patch1_pred round pos nm.id w), hfind]
            simp
          by_cases ht2 : truthy nm.team2_id
          · have hp2 : propagateWinner (ms.map (fun x => if x.id = nm.id then
                { x with team1_id := some w } else x)) week round pos w
                = ms.map (fun x => if x.id = nm.id then
                    { x with team1_id := some w } else x) := by
              rw [propagateWinner_some _ week round pos w _ hpos hfind1]
              have hA : truthy ({ nm with team1_id := some w } : MatchRec).team1_id
                  = true := by
                simp [truthy, hw]
              have hB : truthy ({ nm with team1_id := some w } : MatchRec).team2_id
                  = true := ht2
              rw [hA, hB]
              simp
            rw [hp1, hp2, hp2]
          · have hp2 : propagateWinner (ms.map (fun x => if x.id = nm.id then
                { x with team1_id := some w } else x)) week round pos w
                = (ms.map (fun x => if x.id = nm.id then
                    { x with team1_id := some w } else x)).map
                      (fun x => if x.id = nm.id then
                        { x with team2_id := some w } else x) := by
              rw [propagateWinner_some _ week round pos w _ hpos hfind1]
              have hA : truthy ({ nm with team1_id := some w } : MatchRec).team1_id
                  = true := by
                simp [truthy, hw]
              have hB : truthy ({ nm with team1_id := some w } : MatchRec).team2_id
                  = false := by
                simpa [truthy] using ht2
              rw [hA, hB]
              simp [hw]
            have hfind2 : ((ms.map (fun x => if x.id = nm.id then
                { x with team1_id := some w } else x)).map
                  (fun x => if x.id = nm.id then
                    { x with team2_id := some w } else x)).find?
                (isSuccessorAt round pos)
                = some { nm with team1_id := some w, team2_id := some w } := by
              rw [find?_map_pred_invariant _ _ _ (patch2_pred round pos nm.id w), hfind1]
              simp
            have hp3 : propagateWinner ((ms.map (fun x => if x.id = nm.id then
                { x with team1_id := some w } else x)).map
                  (fun x => if x.id = nm.id then
                    { x with team2_id := some w } else x)) week round pos w
                = (ms.map (fun x => if x.id = nm.id then
                    { x with team1_id := some w } else x)).map
                      (fun x => if x.id = nm.id then
                        { x with team2_id := some w } else x) := by
              rw [propagateWinner_some _ week round pos w _ hpos hfind2]
              simp [truthy, hw]
            rw [hp1, hp2, hp3]

end Admin

namespace Admin

/-- Claim C3 (corrected, amended part): the save route's propagation fills
the successor's `team1_id` when it is falsy, else `team2_id` when that is
falsy, and writes nothing when both sides are occupied (returning success);
however a repeated run is NOT always a no-op — it can fill the other side
with the same winner — and only from the second run onward is the bracket
state stable (three runs equal two runs, over every starting state). -/
theorem C3_amended (ms : List MatchRec) (week round pos w : Nat) :
    (∀ nm, ms.find? (isSuccessorAt round pos) = some nm →
      truthy nm.team1_id = true → truthy nm.team2_id = true →
      propagateWinner ms week round pos w = ms) ∧
    (∀ nm, pos ≠ 0 → ms.find? (isSuccessorAt round pos) = some nm →
      truthy nm.team1_id = false → w ≠ 0 →
      propagateWinner ms week round pos w
        = ms.map (fun x => if x.id = nm.id then
            { x with team1_id := some w } else x)) ∧
    (∀ nm, pos ≠ 0 → ms.find? (isSuccessorAt round pos) = some nm →
      truthy nm.team1_id = true → truthy nm.team2_id = false → w ≠ 0 →
      propagateWinner ms week round pos w
        = ms.map (fun x => if x.id = nm.id then
            { x with team2_id := some w } else x)) ∧
    propagateWinner (propagateWinner (propagateWinner ms week round pos w)
        week round pos w) week round pos w
      = propagateWinner (propagateWinner ms week round pos w) week round pos w := by
  refine ⟨?_, ?_, ?_, propagate_converges ms week round pos w⟩
  · intro nm hfind ht1 ht2
    by_cases hpos : pos = 0
    · simp [propagateWinner, hpos]
    · rw [propagateWinner_some ms week round pos w nm hpos hfind, ht1, ht2]
      simp
  · intro nm hpos hfind ht1 hw
    rw [propagateWinner_some ms week round pos w nm hpos hfind, ht1]
    simp [hw]
  · intro nm hpos hfind ht1 ht2 hw
    rw [propagateWinner_some ms week round pos w nm hpos hfind, ht1, ht2]
    simp [hw]

/-- Claim C3 (counterexample): with the round-2 position-1 successor empty on
both sides, running the propagation of a completed round-1 match with winner
7 twice yields a different bracket state than running it once (the winner
ends up on both sides), refuting "running it any number of times yields the
same state as running it once". -/
theorem C3_counterexample :
    propagateWinner (propagateWinner msC3 0 1 1 7) 0 1 1 7
      ≠ propagateWinner msC3 0 1 1 7 := by decide

/-- Claim C3 (witness): the amended statement instantiated on a fully
occupied successor (no write) and on the concrete convergence scenario. -/
theorem C3_amended_witness :
    propagateWinner [mkPlayoffMatch 9 2 1 (some 4) (some 5)] 0 1 1 7
        = [mkPlayoffMatch 9 2 1 (some 4) (some 5)] ∧
    propagateWinner (propagateWinner (propagateWinner msC3 0 1 1 7) 0 1 1 7)
        0 1 1 7
      = propagateWinner (propagateWinner msC3 0 1 1 7) 0 1 1 7 :=
  ⟨(C3_amended [mkPlayoffMatch 9 2 1 (some 4) (some 5)] 0 1 1 7).1
      (mkPlayoffMatch 9 2 1 (some 4) (some 5)) (by decide) (by decide) (by decide),
   (C3_amended msC3 0 1 1 7).2.2.2⟩

/-- Claim C4 (corrected, amended part): when no successor match exists at
`(round + 1, pos)`, the propagation appends a freshly created successor whose
`team2_id` carries the winner and whose `team1_id` is null — not the other
way round as the specification says. -/
theorem C4_amended (ms : List MatchRec) (week round pos w : Nat)
    (hpos : pos ≠ 0) (hnone : ms.find? (isSuccessorAt round pos) = none) :
    propagateWinner ms week round pos w
        = ms ++ [newSuccessor week round pos w (freshId ms)] ∧
    (newSuccessor week round pos w (freshId ms)).team1_id = none ∧
    (newSuccessor week round pos w (freshId ms)).team2_id = some w ∧
    (newSuccessor week round pos w (freshId ms)).playoff_round = some (round + 1) ∧
    (newSuccessor week round pos w (freshId ms)).bracket_pos = some pos ∧
    (newSuccessor week round pos w (freshId ms)).match_type = "playoff" :=
  ⟨propagateWinner_none ms week round pos w hpos hnone, rfl, rfl, rfl, rfl, rfl⟩

/-- Claim C4 (counterexample): propagating winner 7 of a round-1 match into
an empty bracket creates the successor with `(team1_id, team2_id)`
`(null, 7)`, not `(7, null)` as claimed. -/
theorem C4_counterexample :
    ((propagateWinner [] 3 1 2 7).map (fun mm => (mm.team1_id, mm.team2_id))
      = [((none : Option Nat), some 7)]) ∧
    ¬ ((propagateWinner [] 3 1 2 7).map (fun mm => (mm.team1_id, mm.team2_id))
      = [(some 7, (none : Option Nat))]) := by decide

/-- Claim C4 (witness): the amended statement instantiated on the empty
match table. -/
theorem C4_amended_witness :
    (propagateWinner [] 3 1 2 7 = [] ++ [newSuccessor 3 1 2 7 (freshId [])] ∧
    (newSuccessor 3 1 2 7 (freshId [])).team1_id = none ∧
    (newSuccessor 3 1 2 7 (freshId [])).team2_id = some 7 ∧
    (newSuccessor 3 1 2 7 (freshId [])).playoff_round = some 2 ∧
    (newSuccessor 3 1 2 7 (freshId [])).bracket_pos = some 2 ∧
    (newSuccessor 3 1 2 7 (freshId [])).match_type = "playoff") :=
  C4_amended [] 3 1 2 7 (by decide) (by decide)

end Admin

namespace Admin

lemma byePatch_pred (i nid : Nat) (b : Option Nat) (x : MatchRec) :
    byeMatchPred i (if x.id = nid then { x with team1_id := b } else x)
      = byeMatchPred i x := by
  split <;> rfl

/-- Claim C5 (corrected, amended part): for a round-2 position with an
existing match and a truthy bye team, the seeding writes the bye team into
`team1_id` unconditionally — overwriting an occupied `team1_id` and leaving
`team2_id` untouched; with no bye team selected nothing is written; with no
match at the position one is created with the bye team (null when falsy) as
`team1_id` and a null `team2_id`. -/
theorem C5_amended (ms : List MatchRec) (i : Nat) (byeTeam : Option Nat) :
    (∀ ex, ms.find? (byeMatchPred i) = some ex → truthy byeTeam = true →
      (seedPos ms i byeTeam).find? (byeMatchPred i)
        = some { ex with team1_id := byeTeam }) ∧
    (∀ ex, ms.find? (byeMatchPred i) = some ex → truthy byeTeam = false →
      seedPos ms i byeTeam = ms) ∧
    (ms.find? (byeMatchPred i) = none →
      seedPos ms i byeTeam = ms ++ [newByeMatch (freshId ms) i byeTeam] ∧
      (newByeMatch (freshId ms) i byeTeam).team1_id
        = (if truthy byeTeam then byeTeam else none) ∧
      (newByeMatch (freshId ms) i byeTeam).team2_id = none) := by
  refine ⟨?_, ?_, ?_⟩
  · intro ex hfind ht
    unfold seedPos
    rw [hfind]
    simp only [ht, if_true]
    rw [find?_map_pred_invariant _ _ _ (byePatch_pred i ex.id byeTeam), hfind]
    simp
  · intro ex hfind ht
    unfold seedPos
    rw [hfind]
    simp [ht]
  · intro hfind
    unfold seedPos
    rw [hfind]
    exact ⟨rfl, rfl, rfl⟩

/-- Claim C5 (counterexample): seeding bye team 9 into position 1, whose
existing match already has `team1_id = 3`, overwrites the occupied slot with
9 — refuting "never overwrites a team slot that is already occupied". -/
theorem C5_counterexample :
    ((seedRound2Byes msC5 [some 9]).find? (fun mm => mm.id == 1)).map
        (fun mm => (mm.team1_id, mm.team2_id))
      = some (some 9, (none : Option Nat)) ∧
    (some 9 : Option Nat) ≠ some 3 := by decide

/-- Claim C5 (witness): the amended overwrite statement instantiated on the
occupied position-1 match. -/
theorem C5_amended_witness :
    (seedPos msC5 1 (some 9)).find? (byeMatchPred 1)
      = some { mkPlayoffMatch 1 2 1 (some 3) none with team1_id := some 9 } :=
  (C5_amended msC5 1 (some 9)).1 (mkPlayoffMatch 1 2 1 (some 3) none)
    (by decide) (by decide)

lemma countP_range_shift (n a q : Nat) :
    (List.range n).countP (fun j => a + j == q)
      = if a ≤ q ∧ q < a + n then 1 else 0 := by
  induction n with
  | zero =>
    simp only [List.range_zero, List.countP_nil]
    split
    · omega
    · rfl
  | succ n ih =>
    rw [List.range_succ, List.countP_append, ih]
    have hone : List.countP (fun j => a + j == q) [n]
        = if a + n = q then 1 else 0 := by
      simp [List.countP_cons]
    rw [hone]
    split_ifs <;> omega

lemma createRound1_idem (ms : List MatchRec) :
    createRound1Slots (createRound1Slots ms) = createRound1Slots ms := by
  unfold createRound1Slots
  dsimp only
  by_cases h : 0 < 8 - (ms.filter (fun mm => mm.playoff_round == some 1)).length
  · rw [if_pos h]
    have hlen : ((ms ++ (List.range
        (8 - (ms.filter (fun mm => mm.playoff_round == some 1)).length)).map
          (fun j => round1Match (freshId ms + j)
            ((ms.filter (fun mm => mm.playoff_round == some 1)).length + 1 + j))).filter
        (fun mm => mm.playoff_round == some 1)).length = 8 := by
      rw [List.filter_append, List.length_append]
      have hall : ((List.range
          (8 - (ms.filter (fun mm => mm.playoff_round == some 1)).length)).map
            (fun j => round1Match (freshId ms + j)
              ((ms.filter (fun mm => mm.playoff_round == some 1)).length + 1 + j))).filter
          (fun mm => mm.playoff_round == some 1)
          = (List.range
          (8 - (ms.filter (fun mm => mm.playoff_round == some 1)).length)).map
            (fun j => round1Match (freshId ms + j)
              ((ms.filter (fun mm => mm.playoff_round == some 1)).length + 1 + j)) := by
        apply List.filter_eq_self.2
        intro a ha
        rcases List.mem_map.1 ha with ⟨j, _, rfl⟩
        rfl
      rw [hall, List.length_map, List.length_range]
      omega
    rw [hlen]
    simp
  · rw [if_neg h]
    rw [if_neg h]

/-- Claim C6 (corrected, amended part): round-1 creation counts the existing
round-1 matches and creates positions `count + 1` through 8, so it yields
exactly one match per position 1..8 only when the existing matches already
occupy exactly the positions 1..count; running it a second time always
creates nothing. -/
theorem C6_amended (ms : List MatchRec) (k : Nat)
    (hk : k = (ms.filter (fun mm => mm.playoff_round == some 1)).length)
    (hk8 : k ≤ 8)
    (hpositions : ∀ p, ms.countP
        (fun mm => mm.playoff_round == some 1 && mm.bracket_pos == some p)
      = if 1 ≤ p ∧ p ≤ k then 1 else 0) :
    (∀ p, 1 ≤ p → p ≤ 8 → (createRound1Slots ms).countP
        (fun mm => mm.playoff_round == some 1 && mm.bracket_pos == some p) = 1) ∧
    createRound1Slots (createRound1Slots ms) = createRound1Slots ms := by
  refine ⟨?_, createRound1_idem ms⟩
  intro p hp1 hp8
  unfold createRound1Slots
  dsimp only
  by_cases hlt : k < 8
  · rw [if_pos (by omega : 0 < 8 - (ms.filter
      (fun mm => mm.playoff_round == some 1)).length)]
    rw [List.countP_append, hpositions p]
    have hnew : ((List.range
        (8 - (ms.filter (fun mm => mm.playoff_round == some 1)).length)).map
          (fun j => round1Match (freshId ms + j)
            ((ms.filter (fun mm => mm.playoff_round == some 1)).length + 1 + j))).countP
        (fun mm => mm.playoff_round == some 1 && mm.bracket_pos == some p)
        = if k + 1 ≤ p ∧ p < k + 1 + (8 - k) then 1 else 0 := by
      rw [List.countP_map]
      have heq : ((fun mm => mm.playoff_round == some 1 &&
          mm.bracket_pos == some p) ∘
          (fun j => round1Match (freshId ms + j)
            ((ms.filter (fun mm => mm.playoff_round == some 1)).length + 1 + j)))
          = fun j => (k + 1) + j == p := by
        funext j
        simp [round1Match, Function.comp, ← hk]
      rw [heq, countP_range_shift, ← hk]
    rw [hnew]
    split_ifs <;> omega
  · rw [if_neg (by omega : ¬ 0 < 8 - (ms.filter
      (fun mm => mm.playoff_round == some 1)).length)]
    rw [hpositions p]
    split_ifs <;> omega

/-- Claim C6 (counterexample): starting from a single round-1 match at
bracket position 5, the operation creates positions 2..8, leaving position 5
duplicated and position 1 missing — refuting "exactly 8 matches, one per
bracket position 1..8, from any starting set". -/
theorem C6_counterexample :
    ((createRound1Slots msC6).filter (fun mm => mm.playoff_round == some 1 &&
        mm.bracket_pos == some 5)).length = 2 ∧
    ((createRound1Slots msC6).filter (fun mm => mm.playoff_round == some 1 &&
        mm.bracket_pos == some 1)).length = 0 := by decide

/-- Claim C6 (witness): the amended statement instantiated on the empty
table: position 3 ends with exactly one match and a second run is a no-op. -/
theorem C6_amended_witness :
    (createRound1Slots []).countP
        (fun mm => mm.playoff_round == some 1 && mm.bracket_pos == some 3) = 1 ∧
    createRound1Slots (createRound1Slots []) = createRound1Slots [] :=
  ⟨(C6_amended [] 0 rfl (by decide)
      (fun p => by
        simp only [List.countP_nil]
        split
        · omega
        · rfl)).1 3 (by decide) (by decide),
   (C6_amended [] 0 rfl (by decide)
      (fun p => by
        simp only [List.countP_nil]
        split
        · omega
        · rfl)).2⟩

end Admin

namespace Admin

lemma find?_of_filter_singleton {α : Type} (p : α → Bool) (l : List α) (a : α)
    (h : l.filter p = [a]) : l.find? p = some a := by
  induction l with
  | nil => simp at h
  | cons x xs ih =>
    rw [List.filter_cons] at h
    by_cases hx : p x
    · rw [if_pos hx] at h
      have hxa : x = a := (List.cons_eq_cons.1 h).1
      rw [List.find?_cons_of_pos _ hx, hxa]
    · rw [if_neg hx] at h
      rw [List.find?_cons_of_neg _ hx]
      exact ih h

lemma updOf_id (db : DB) (req : SaveRequest) (mi : MatchRec) (x : MatchRec) :
    (updOf db req mi x).id = x.id := by
  unfold updOf baseOf
  split
  · split <;> rfl
  · rfl

lemma updOf_status (db : DB) (req : SaveRequest) (mi : MatchRec) (x : MatchRec) :
    (updOf db req mi x).status = "completed" := by
  unfold updOf baseOf
  split
  · split <;> rfl
  · rfl

lemma updOf_winner (db : DB) (req : SaveRequest) (mi : MatchRec) (x : MatchRec) :
    (updOf db req mi x).winner_id = finalWinnerOf db req mi := by
  unfold updOf baseOf
  split
  · split <;> rfl
  · rfl

lemma propagateWinner_find_sw (ms : List MatchRec) (week round pos w mid : Nat)
    (r : MatchRec) (h : ms.find? (fun mm => mm.id == mid) = some r) :
    ((propagateWinner ms week round pos w).find? (fun mm => mm.id == mid)).map
        (fun mm => (mm.status, mm.winner_id))
      = some (r.status, r.winner_id) := by
  by_cases hpos : pos = 0
  · simp [propagateWinner, hpos, h]
  · cases hfind : ms.find? (isSuccessorAt round pos) with
    | none =>
      rw [propagateWinner_none _ _ _ _ _ hpos hfind]
      rw [List.find?_append, h]
      simp
    | some nm =>
      rw [propagateWinner_some _ _ _ _ _ _ hpos hfind]
      have hid1 : ∀ x : MatchRec,
          ((if x.id = nm.id then { x with team1_id := some w } else x).id == mid)
            = (x.id == mid) := by
        intro x; split <;> rfl
      have hid2 : ∀ x : MatchRec,
          ((if x.id = nm.id then { x with team2_id := some w } else x).id == mid)
            = (x.id == mid) := by
        intro x; split <;> rfl
      split_ifs
      · rw [find?_map_pred_invariant _ _ _ hid1, h]
        simp only [Option.map_map, Option.map]
        have : ((if r.id = nm.id then { r with team1_id := some w } else r).status,
            (if r.id = nm.id then { r with team1_id := some w } else r).winner_id)
            = (r.status, r.winner_id) := by
          split <;> rfl
        simp [this]
      · simp [h]
      · rw [find?_map_pred_invariant _ _ _ hid2, h]
        have : ((if r.id = nm.id then { r with team2_id := some w } else r).status,
            (if r.id = nm.id then { r with team2_id := some w } else r).winner_id)
            = (r.status, r.winner_id) := by
          split <;> rfl
        simp [this]
      · simp [h]
      · simp [h]

end Admin

namespace Admin

lemma mi_id_of_filter (db : DB) (req : SaveRequest) (mi : MatchRec)
    (hmi : db.matches.filter (fun mm => mm.id == req.matchId) = [mi]) :
    mi.id = req.matchId := by
  have hmem : mi ∈ db.matches.filter (fun mm => mm.id == req.matchId) := by
    rw [hmi]; exact List.mem_singleton.2 rfl
  have := (List.mem_filter.1 hmem).2
  simpa using this

lemma savePostOk_find_sw (db : DB) (req : SaveRequest) (mi : MatchRec)
    (hmi : db.matches.filter (fun mm => mm.id == req.matchId) = [mi]) :
    ((savePostOk db req mi).matches.find? (fun mm => mm.id == req.matchId)).map
        (fun mm => (mm.status, mm.winner_id))
      = some ("completed", finalWinnerOf db req mi) := by
  have hfind : db.matches.find? (fun mm => mm.id == req.matchId) = some mi :=
    find?_of_filter_singleton _ _ _ hmi
  have hidinv : ∀ x : MatchRec,
      ((if x.id = req.matchId then updOf db req mi x else x).id == req.matchId)
        = (x.id == req.matchId) := by
    intro x
    split
    · rw [updOf_id]
    · rfl
  have hfind1 : (db.matches.map
      (fun x => if x.id = req.matchId then updOf db req mi x else x)).find?
        (fun mm => mm.id == req.matchId)
      = some (if mi.id = req.matchId then updOf db req mi mi else mi) := by
    rw [find?_map_pred_invariant _ _ _ hidinv, hfind]
    rfl
  rw [if_pos (mi_id_of_filter db req mi hmi)] at hfind1
  unfold savePostOk
  dsimp only
  split
  · exact propagateWinner_find_sw _ _ _ _ _ _ _ hfind1 |>.trans
      (by rw [updOf_status, updOf_winner])
  · rw [hfind1]
    simp only [Option.map]
    rw [updOf_status, updOf_winner]

/-- Claim C7 (corrected, amended part): every match the resolver updates is
set to `completed`, and its `winner_id` is `team1_id` when team 1 won more
maps, `team2_id` when team 2 did, and NULL when the map-win counts are equal
— so a completed match can be left without a winner (for example when every
map's winner matches neither team). -/
theorem C7_amended (db : DB) (req : SaveRequest) (mi : MatchRec)
    (hmid : req.matchId ≠ 0)
    (hmi : db.matches.filter (fun mm => mm.id == req.matchId) = [mi]) :
    savePost db req = .ok (savePostOk db req mi) ∧
    ((savePostOk db req mi).matches.find? (fun mm => mm.id == req.matchId)).map
        (fun mm => (mm.status, mm.winner_id))
      = some ("completed",
          if t2WinsOf db req mi < t1WinsOf db req mi then mi.team1_id
          else if t1WinsOf db req mi < t2WinsOf db req mi then mi.team2_id
          else none) := by
  constructor
  · unfold savePost
    rw [if_neg hmid, hmi]
    rfl
  · exact savePostOk_find_sw db req mi hmi

/-- Claim C7 (counterexample): saving a single map whose winner (99) matches
neither team of match 1 leaves the match with `status = completed` and
`winner_id = null`, refuting "every completed match has a non-null
winner_id". -/
theorem C7_counterexample :
    (match savePost dbC7 reqC7 with
     | .ok d => (d.matches.find? (fun mm => mm.id == 1)).map
         (fun mm => (mm.status, mm.winner_id))
     | .error _ => none) = some ("completed", (none : Option Nat)) := by decide

/-- Claim C7 (witness): the amended statement instantiated on the
neither-team-winner save, where both map-win counts are 0. -/
theorem C7_amended_witness :
    savePost dbC7 reqC7 = .ok (savePostOk dbC7 reqC7 regMatchC7) ∧
    ((savePostOk dbC7 reqC7 regMatchC7).matches.find?
        (fun mm => mm.id == reqC7.matchId)).map
        (fun mm => (mm.status, mm.winner_id))
      = some ("completed",
          if t2WinsOf dbC7 reqC7 regMatchC7 < t1WinsOf dbC7 reqC7 regMatchC7
          then regMatchC7.team1_id
          else if t1WinsOf dbC7 reqC7 regMatchC7 < t2WinsOf dbC7 reqC7 regMatchC7
          then regMatchC7.team2_id
          else none) :=
  C7_amended dbC7 reqC7 regMatchC7 (by decide) (by decide)

/-- Claim C8 (corrected, amended part): a map row whose `winner_id` matches
neither of the match's teams is NOT rejected — the save succeeds, the map row
is persisted, the match is still marked completed, and the foreign-winner row
simply counts toward neither team's map-win total. -/
theorem C8_amended (db : DB) (req : SaveRequest) (mi : MatchRec)
    (hmid : req.matchId ≠ 0)
    (hmi : db.matches.filter (fun mm => mm.id == req.matchId) = [mi])
    (hforeign1 : req.mapData.winner_id ≠ mi.team1_id)
    (hforeign2 : req.mapData.winner_id ≠ mi.team2_id) :
    savePost db req = .ok (savePostOk db req mi) ∧
    mapRowOf req ∈ (savePostOk db req mi).match_maps ∧
    ((savePostOk db req mi).matches.find? (fun mm => mm.id == req.matchId)).map
        (fun mm => mm.status) = some "completed" ∧
    t1WinsOf db req mi = (((db.match_maps.filter
        (fun r => !(r.match_id == req.matchId &&
          r.map_index == req.mapData.index))).filter
            (fun r => r.match_id == req.matchId)).filter
          (fun r => r.winner_id == mi.team1_id)).length ∧
    t2WinsOf db req mi = (((db.match_maps.filter
        (fun r => !(r.match_id == req.matchId &&
          r.map_index == req.mapData.index))).filter
            (fun r => r.match_id == req.matchId)).filter
          (fun r => r.winner_id == mi.team2_id)).length := by
  refine ⟨?_, ?_, ?_, ?_, ?_⟩
  · unfold savePost
    rw [if_neg hmid, hmi]
    rfl
  · show mapRowOf req ∈ mapsAfterSave db req
    unfold mapsAfterSave
    exact List.mem_append.2 (Or.inr (List.mem_singleton.2 rfl))
  · have h := savePostOk_find_sw db req mi hmi
    cases hfind : (savePostOk db req mi).matches.find?
        (fun mm => mm.id == req.matchId) with
    | none => rw [hfind] at h; simp at h
    | some v =>
      rw [hfind] at h
      simp only [Option.map] at h ⊢
      have hv := Option.some.inj h
      have hs : v.status = "completed" := congrArg Prod.fst hv
      rw [hs]
  · unfold t1WinsOf allMapsAfter mapsAfterSave
    rw [List.filter_append, List.filter_append]
    have h1 : List.filter (fun r => r.match_id == req.matchId) [mapRowOf req]
        = [mapRowOf req] := by
      simp [mapRowOf]
    rw [h1]
    have h2 : List.filter (fun r => r.winner_id == mi.team1_id) [mapRowOf req]
        = [] := by
      simp [mapRowOf]
      exact hforeign1
    rw [h2, List.length_append]
    simp
  · unfold t2WinsOf allMapsAfter mapsAfterSave
    rw [List.filter_append, List.filter_append]
    have h1 : List.filter (fun r => r.match_id == req.matchId) [mapRowOf req]
        = [mapRowOf req] := by
      simp [mapRowOf]
    rw [h1]
    have h2 : List.filter (fun r => r.winner_id == mi.team2_id) [mapRowOf req]
        = [] := by
      simp [mapRowOf]
      exact hforeign2
    rw [h2, List.length_append]
    simp

end Admin

namespace Admin

/-- Claim C8 (counterexample): the save with map winner 99 (neither team of
match 1) succeeds, persists the map row, and updates the match to completed —
refuting "the save is rejected as malformed input and nothing is
persisted". -/
theorem C8_counterexample :
    isOk (savePost dbC7 reqC7) = true ∧
    (match savePost dbC7 reqC7 with
     | .ok d => decide (mapRowOf reqC7 ∈ d.match_maps)
     | .error _ => false) = true ∧
    (match savePost dbC7 reqC7 with
     | .ok d => (d.matches.find? (fun mm => mm.id == 1)).map
         (fun mm => mm.status)
     | .error _ => none) = some "completed" := by decide

/-- Claim C8 (witness): the amended statement instantiated on the
foreign-winner save request. -/
theorem C8_amended_witness :
    savePost dbC7 reqC7 = .ok (savePostOk dbC7 reqC7 regMatchC7) ∧
    mapRowOf reqC7 ∈ (savePostOk dbC7 reqC7 regMatchC7).match_maps ∧
    ((savePostOk dbC7 reqC7 regMatchC7).matches.find?
        (fun mm => mm.id == reqC7.matchId)).map (fun mm => mm.status)
      = some "completed" ∧
    t1WinsOf dbC7 reqC7 regMatchC7 = (((dbC7.match_maps.filter
        (fun r => !(r.match_id == reqC7.matchId &&
          r.map_index == reqC7.mapData.index))).filter
            (fun r => r.match_id == reqC7.matchId)).filter
          (fun r => r.winner_id == regMatchC7.team1_id)).length ∧
    t2WinsOf dbC7 reqC7 regMatchC7 = (((dbC7.match_maps.filter
        (fun r => !(r.match_id == reqC7.matchId &&
          r.map_index == reqC7.mapData.index))).filter
            (fun r => r.match_id == reqC7.matchId)).filter
          (fun r => r.winner_id == regMatchC7.team2_id)).length :=
  C8_amended dbC7 reqC7 regMatchC7 (by decide) (by decide) (by decide) (by decide)

/-- Claim C9 (confirmed): the match-level forfeit path records the selected
winner (team 1 when the forfeit flag is set, team 2 otherwise) with a
canonical 13-0 score in the winner's favor, `maps_played = 0`,
`is_forfeit = true` (stored as 1), and status completed; it clears the stored
map rows and its outcome does not depend on any per-map results. -/
theorem C9_theorem (db : DB) (sel : SelMatch) (forfeit : Bool) (format : String) :
    (∀ mm ∈ (saveForfeitMatch db sel forfeit format).matches, mm.id = sel.id →
      mm.status = "completed" ∧ mm.maps_played = some 0 ∧
      mm.is_forfeit = some 1 ∧
      mm.winner_id = some (if forfeit then sel.team1_id else sel.team2_id) ∧
      mm.score_t1 = some (if forfeit then 13 else 0) ∧
      mm.score_t2 = some (if forfeit then 0 else 13)) ∧
    (saveForfeitMatch db sel forfeit format).match_maps
      = db.match_maps.filter (fun r => !(r.match_id == sel.id)) ∧
    (∀ maps2 stats2,
      (saveForfeitMatch
          { db with match_maps := maps2, match_stats_map := stats2 }
          sel forfeit format).matches
        = (saveForfeitMatch db sel forfeit format).matches) := by
  refine ⟨?_, rfl, fun maps2 stats2 => rfl⟩
  intro mm hmm hid
  unfold saveForfeitMatch clearMatchDetails at hmm
  dsimp only at hmm
  rcases List.mem_map.1 hmm with ⟨x, hx, rfl⟩
  by_cases hxid : x.id = sel.id
  · rw [if_pos hxid]
    cases forfeit <;>
      exact ⟨rfl, rfl, rfl, by simp, by simp, by simp⟩
  · exfalso
    rw [if_neg hxid] at hid
    exact hxid hid

end Admin

namespace Admin

/-- Claim C9 (witness): the statement instantiated for both choices of
winner on a concrete match between teams 10 and 20. -/
theorem C9_theorem_witness :
    (({ mC9 with
        score_t1 := some 13, score_t2 := some 0, winner_id := some 10,
        status := "completed", format := "BO3", maps_played := some 0,
        is_forfeit := some 1 } : MatchRec).status
          = "completed" ∧
      ({ mC9 with
        score_t1 := some 13, score_t2 := some 0, winner_id := some 10,
        status := "completed", format := "BO3", maps_played := some 0,
        is_forfeit := some 1 } : MatchRec).maps_played
          = some 0 ∧
      ({ mC9 with
        score_t1 := some 13, score_t2 := some 0, winner_id := some 10,
        status := "completed", format := "BO3", maps_played := some 0,
        is_forfeit := some 1 } : MatchRec).is_forfeit
          = some 1 ∧
      ({ mC9 with
        score_t1 := some 13, score_t2 := some 0, winner_id := some 10,
        status := "completed", format := "BO3", maps_played := some 0,
        is_forfeit := some 1 } : MatchRec).winner_id
          = some (if true then 10 else 20) ∧
      ({ mC9 with
        score_t1 := some 13, score_t2 := some 0, winner_id := some 10,
        status := "completed", format := "BO3", maps_played := some 0,
        is_forfeit := some 1 } : MatchRec).score_t1
          = some (if true then 13 else 0) ∧
      ({ mC9 with
        score_t1 := some 13, score_t2 := some 0, winner_id := some 10,
        status := "completed", format := "BO3", maps_played := some 0,
        is_forfeit := some 1 } : MatchRec).score_t2
          = some (if true then 0 else 13)) ∧
    (({ mC9 with
        score_t1 := some 0, score_t2 := some 13, winner_id := some 20,
        status := "completed", format := "BO3", maps_played := some 0,
        is_forfeit := some 1 } : MatchRec).winner_id
          = some (if false then 10 else 20) ∧
      ({ mC9 with
        score_t1 := some 0, score_t2 := some 13, winner_id := some 20,
        status := "completed", format := "BO3", maps_played := some 0,
        is_forfeit := some 1 } : MatchRec).score_t1
          = some (if false then 13 else 0) ∧
      ({ mC9 with
        score_t1 := some 0, score_t2 := some 13, winner_id := some 20,
        status := "completed", format := "BO3", maps_played := some 0,
        is_forfeit := some 1 } : MatchRec).score_t2
          = some (if false then 0 else 13)) ∧
    (saveForfeitMatch dbC9 ⟨1, 10, 20⟩ true "BO3").match_maps
      = dbC9.match_maps.filter (fun r => !(r.match_id == (1 : Nat))) := by
  refine ⟨?_, ?_, ?_⟩
  · exact (C9_theorem dbC9 ⟨1, 10, 20⟩ true "BO3").1
      ({ mC9 with
        score_t1 := some 13, score_t2 := some 0, winner_id := some 10,
        status := "completed", format := "BO3", maps_played := some 0,
        is_forfeit := some 1 }) (by decide) (by decide)
  · have h := (C9_theorem dbC9 ⟨1, 10, 20⟩ false "BO3").1
      ({ mC9 with
        score_t1 := some 0, score_t2 := some 13, winner_id := some 20,
        status := "completed", format := "BO3", maps_played := some 0,
        is_forfeit := some 1 }) (by decide) (by decide)
    exact ⟨h.2.2.2.1, h.2.2.2.2.1, h.2.2.2.2.2⟩
  · exact (C9_theorem dbC9 ⟨1, 10, 20⟩ true "BO3").2.1

end Admin
